import Mathlib

/-!
Verification of the fswatch monitor abstraction layer (libfswatch), a
cross-platform file-system change notification framework.  The repository
ships the interface header `src/libfswatch/src/libfswatch/c++/monitor.hpp`;
the implementation translation units (monitor.cpp, filter.cpp, event.cpp)
are not part of the source tree, so the operations declared by the header
are modelled from the specification, faithful to its words, while the
defaults and data shapes recorded in the header itself (field initializers,
deleted members, member types) are taken from the header.
-/

namespace Fswatch

/-- Event-type flags carried by an event.  The header includes `event.hpp`
and `cmonitor.h` (not in the tree); the flag taxonomy is the open
enumeration listed by the specification's data model. -/
inductive fsw_event_flag where
  | NoOp
  | PlatformSpecific
  | Created
  | Updated
  | Removed
  | Renamed
  | OwnerModified
  | AttributeModified
  | MovedFrom
  | MovedTo
  | IsFile
  | IsDir
  | IsSymLink
  | Link
  | Overflow
  deriving DecidableEq, Repr

/-- An immutable filesystem change event: path, timestamp, set of flags.
Mirrors `class event` (path: string, time, flags vector). -/
structure event where
  path : String
  evt_time : Nat
  flags : List fsw_event_flag
  deriving DecidableEq, Repr

/-- Include / Exclude verdict of a path filter (`fsw_filter_type` from
`cfilter.h`, included through `filter.hpp`). -/
inductive fsw_filter_type where
  | filter_include
  | filter_exclude
  deriving DecidableEq, Repr

/-- A user-facing path filter before compilation (`monitor_filter` from
`filter.hpp`): pattern text, verdict, case sensitivity, grammar choice. -/
structure monitor_filter where
  text : String
  type : fsw_filter_type
  case_sensitive : Bool
  extended : Bool
  deriving DecidableEq, Repr

/-- A compiled path filter owned by the monitor
(`compiled_monitor_filter`): the compiled matcher together with the
original verdict.  The regular-expression engine lives in the C library
(not in the tree), so the compiled matcher is carried as the abstract
predicate it denotes on candidate paths. -/
structure compiled_monitor_filter where
  matcher : String → Bool
  type : fsw_filter_type

/-- Modelled from the spec: `monitor::accept_path` (declared at
monitor.hpp:61, implemented in the missing monitor.cpp).  Filters are
evaluated in the order they were added; the first filter whose compiled
pattern matches the path decides with its Include/Exclude verdict; if no
filter matches, the path is accepted by default. -/
def accept_path (filters : List compiled_monitor_filter) (path : String) : Bool :=
  match filters with
  | [] => true
  | f :: rest =>
      if f.matcher path then f.type == fsw_filter_type.filter_include
      else accept_path rest path

/-- Modelled from the spec: `monitor::accept_event_type` (declared at
monitor.hpp:60, implemented in the missing monitor.cpp).  With an empty
event-type whitelist every flag is accepted; otherwise a flag is accepted
exactly when it appears in the whitelist. -/
def accept_event_type (event_type_filters : List fsw_event_flag)
    (flag : fsw_event_flag) : Bool :=
  if event_type_filters.isEmpty then true
  else event_type_filters.contains flag

/-- Modelled from the spec: `monitor::filter_flags` (declared at
monitor.hpp:65, implemented in the missing monitor.cpp).  If the
event-type whitelist is empty, returns the event's flags unchanged;
otherwise returns the intersection of the event's flags with the
whitelist, keeping the event's order. -/
def filter_flags (event_type_filters : List fsw_event_flag) (evt : event) :
    List fsw_event_flag :=
  if event_type_filters.isEmpty then evt.flags
  else evt.flags.filter (fun f => event_type_filters.contains f)

/-- Modelled from the spec: the surviving subset computed by
`monitor::notify_events` (declared at monitor.hpp:63, implemented in the
missing monitor.cpp).  Every event of the batch is put through event-type
filtering and path filtering in original arrival order; an event survives
when its filtered flag set is non-empty and its path is accepted, and it
is delivered carrying its filtered flags. -/
def surviving_events (filters : List compiled_monitor_filter)
    (event_type_filters : List fsw_event_flag) (events : List event) :
    List event :=
  events.filterMap (fun e =>
    let ff := filter_flags event_type_filters e
    if ff.isEmpty then none
    else if accept_path filters e.path then
      some { e with flags := ff }
    else none)

/-- Modelled from the spec: `monitor::notify_events` (declared at
monitor.hpp:63, implemented in the missing monitor.cpp).  The result lists
the callback invocations the call performs, each with the event sequence
it delivers: exactly one invocation with the surviving subset when that
subset is non-empty, none otherwise. -/
def notify_events (filters : List compiled_monitor_filter)
    (event_type_filters : List fsw_event_flag) (events : List event) :
    List (List event) :=
  let s := surviving_events filters event_type_filters events
  if s.isEmpty then [] else [s]

/-- Error conditions of the monitor layer, per the specification's error
taxonomy (the concrete `libfsw_exception` codes live in the missing
implementation units). -/
inductive fsw_error where
  | AlreadyRunning
  | InvalidArgument
  | PatternError (pattern : String)
  | Overflow
  | UnknownMonitorType (name : String)
  | DuplicateCreator (name : String)
  deriving DecidableEq, Repr

/-- Modelled from the spec: `monitor::notify_overflow` (declared at
monitor.hpp:64, implemented in the missing monitor.cpp).  With
`allow_overflow` false the overflow is fatal for the run and propagates a
dedicated Overflow failure.  With `allow_overflow` true it synthesizes a
single event bearing only the Overflow flag and routes it through the
same event-type filtering as ordinary events — never through path
filtering, since an overflow is not about a specific path.  On success the
result lists the callback invocations performed. -/
def notify_overflow (allow_overflow : Bool)
    (event_type_filters : List fsw_event_flag) (path : String) (t : Nat) :
    Except fsw_error (List (List event)) :=
  if allow_overflow = false then Except.error fsw_error.Overflow
  else
    let evt : event := { path := path, evt_time := t,
                         flags := [fsw_event_flag.Overflow] }
    let ff := filter_flags event_type_filters evt
    if ff.isEmpty then Except.ok []
    else Except.ok [[{ evt with flags := ff }]]

/-- Modelled from the spec: the monitor lifecycle state machine
{Configured, Running, Failed, Stopped} of the design notes, realized by
`monitor::start` (declared at monitor.hpp:55) and `run_mutex`
(monitor.hpp:80-82) in the missing monitor.cpp. -/
inductive lifecycle_state where
  | Configured
  | Running
  | Failed
  | Stopped
  deriving DecidableEq, Repr

/-- Modelled from the spec: `monitor::start` (declared at monitor.hpp:55,
implemented in the missing monitor.cpp).  The mutual-exclusion gate
`run_mutex` serializes concurrent calls across the one-time check-and-set,
so any race reduces to some sequential order of the atomic transitions
modelled here.  From Configured, the call transitions to Running and
launches the native loop (the Bool records that this call ran the loop);
from any other state — in particular while already Running — the call is
rejected with AlreadyRunning, runs no loop, and leaves the state
unchanged. -/
def start (s : lifecycle_state) :
    lifecycle_state × Except fsw_error Unit × Bool :=
  match s with
  | lifecycle_state.Configured =>
      (lifecycle_state.Running, Except.ok (), true)
  | other => (other, Except.error fsw_error.AlreadyRunning, false)

/-- Iterated sequential `start` calls from a state: final state, the list
of per-call results, and the number of native loops launched. -/
def start_calls (s : lifecycle_state) : Nat →
    lifecycle_state × List (Except fsw_error Unit) × Nat
  | 0 => (s, [], 0)
  | n + 1 =>
      let (s1, r, ran) := start s
      let (s2, rs, k) := start_calls s1 n
      (s2, r :: rs, (if ran then 1 else 0) + k)

/-- Modelled from the spec: `monitor::add_filter` (declared at
monitor.hpp:50, implemented in the missing monitor.cpp).  The pattern
compiler (filter.hpp / the C filter unit, not in the tree) is abstracted
as a deterministic, pure `compile` argument that either yields the
compiled filter or fails for a malformed pattern.  On success the compiled
filter is appended to the monitor's list; on failure the call surfaces a
PatternError identifying the offending pattern and the list is left
exactly as it was. -/
def add_filter (compile : monitor_filter → Option compiled_monitor_filter)
    (state : List compiled_monitor_filter) (f : monitor_filter) :
    List compiled_monitor_filter × Option fsw_error :=
  match compile f with
  | none => (state, some (fsw_error.PatternError f.text))
  | some c => (state ++ [c], none)

/-- Modelled from the spec: compilation of a whole filter batch.  Returns
the compiled filters in order, or the PatternError of the first malformed
pattern. -/
def compile_all (compile : monitor_filter → Option compiled_monitor_filter) :
    List monitor_filter → Except fsw_error (List compiled_monitor_filter)
  | [] => Except.ok []
  | f :: rest =>
      match compile f with
      | none => Except.error (fsw_error.PatternError f.text)
      | some c =>
          match compile_all compile rest with
          | Except.error e => Except.error e
          | Except.ok cs => Except.ok (c :: cs)

/-- Modelled from the spec: `monitor::set_filters` (declared at
monitor.hpp:51, implemented in the missing monitor.cpp).  Compiles the
whole batch and replaces the monitor's filter list only when every pattern
compiles; if any pattern fails, the call surfaces a PatternError
identifying the offending pattern and the previous list is kept untouched
— no filter of the failing batch is applied. -/
def set_filters (compile : monitor_filter → Option compiled_monitor_filter)
    (state : List compiled_monitor_filter) (fs : List monitor_filter) :
    List compiled_monitor_filter × Option fsw_error :=
  match compile_all compile fs with
  | Except.error e => (state, some e)
  | Except.ok cs => (cs, none)

/-- The monitor's configuration fields with the default values recorded by
the in-field initializers of monitor.hpp:71-78: latency 1.0,
allow_overflow false, recursive false, follow_symlinks false, empty
property map.  The C++ `double latency` carries an exact decimal default
and is only ever compared against 0 and stored, so it is embedded as a
rational. -/
structure monitor_config where
  properties : List (String × String) := []
  latency : ℚ := 1
  allow_overflow : Bool := false
  recursive : Bool := false
  follow_symlinks : Bool := false

/-- Modelled from the spec: `monitor::set_latency` (declared at
monitor.hpp:47, implemented in the missing monitor.cpp).  The only
validation is `latency > 0`: a non-positive value fails with an
InvalidArgument condition and leaves the configuration untouched; a
positive value is stored unmodified (never clamped). -/
def set_latency (m : monitor_config) (l : ℚ) :
    monitor_config × Option fsw_error :=
  if l ≤ 0 then (m, some fsw_error.InvalidArgument)
  else ({ m with latency := l }, none)

/-- Modelled from the spec: `monitor::get_property` (declared at
monitor.hpp:46, reading the `properties` map of monitor.hpp:71).  Returns
the stored value for the key, or the empty string when the key is missing
— a total lookup that never fails. -/
def get_property (m : monitor_config) (name : String) : String :=
  match m.properties.lookup name with
  | some v => v
  | none => ""

/-- Modelled from the spec: `monitor::set_properties` (declared at
monitor.hpp:45): replaces the property map wholesale. -/
def set_properties (m : monitor_config) (options : List (String × String)) :
    monitor_config :=
  { m with properties := options }

/-- The backend registry of `monitor_factory`: the name-keyed constructor
map `creators_by_string` (monitor.hpp:117).  Constructor functions are
opaque to the registry, so they are carried as an abstract token type. -/
structure registry (C : Type) where
  creators_by_string : List (String × C) := []

/-- Modelled from the spec: `monitor_factory::register_creator` (declared
at monitor.hpp:111-112, implemented in the missing monitor.cpp).
Registration is keyed by name; registering a name already present is a
duplicate-key violation surfaced to the caller — the second registration
neither overwrites the first entry nor is silently dropped without
report.  On a fresh name the entry is appended. -/
def register_creator {C : Type} (r : registry C) (name : String) (creator : C) :
    registry C × Option fsw_error :=
  if name ∈ r.creators_by_string.map Prod.fst then
    (r, some (fsw_error.DuplicateCreator name))
  else
    ({ creators_by_string := r.creators_by_string ++ [(name, creator)] }, none)

/-- A sample pattern compiler for concrete evaluation of the abstracted
compile argument: it rejects the malformed pattern "(" and compiles every
other pattern to a matcher testing string equality with the pattern
text. -/
def sample_compile (f : monitor_filter) : Option compiled_monitor_filter :=
  if f.text = "(" then none
  else some { matcher := fun s => s == f.text, type := f.type }

/-- A malformed path filter whose pattern fails compilation under
sample_compile. -/
def bad_filter : monitor_filter :=
  { text := "(", type := fsw_filter_type.filter_exclude,
    case_sensitive := true, extended := true }

/-- Modelled from the spec: name-keyed `monitor_factory::create_monitor`
lookup (declared at monitor.hpp:104-107): an unknown name fails with an
UnknownMonitorType condition instead of falling back to a default. -/
def create_monitor {C : Type} (r : registry C) (name : String) :
    Except fsw_error C :=
  match r.creators_by_string.lookup name with
  | some c => Except.ok c
  | none => Except.error (fsw_error.UnknownMonitorType name)

/-- Helper: the surviving subset keeps the batch's arrival order — its
paths form a sublist of the batch's paths. -/
theorem surviving_events_paths_sublist (fs : List compiled_monitor_filter)
    (etf : List fsw_event_flag) (events : List event) :
    List.Sublist ((surviving_events fs etf events).map event.path)
      (events.map event.path) := by
  induction events with
  | nil => simp [surviving_events]
  | cons e rest ih =>
      simp only [surviving_events, List.filterMap_cons, List.map_cons]
      by_cases h1 : (filter_flags etf e).isEmpty
      · simp only [h1, if_true]
        exact List.Sublist.cons _ ih
      · simp only [h1, if_false]
        by_cases h2 : accept_path fs e.path
        · simp only [h2, if_true, List.map_cons]
          exact List.Sublist.cons₂ _ ih
        · simp only [h2, if_false]
          exact List.Sublist.cons _ ih

/-- C2: accept_path evaluates the compiled filters in order and returns
the Include/Exclude verdict of the first filter whose pattern matches the
path; if no filter matches — in particular whenever the filter list is
empty — the path is accepted. -/
theorem accept_path_first_match_wins
    (filters : List compiled_monitor_filter) (path : String) :
    accept_path filters path =
      (match filters.find? (fun f => f.matcher path) with
       | some f => f.type == fsw_filter_type.filter_include
       | none => true) ∧
    accept_path [] path = true := by
  refine ⟨?_, rfl⟩
  induction filters with
  | nil => rfl
  | cons f rest ih =>
      simp only [accept_path, List.find?]
      cases h : f.matcher path
      · simpa [h] using ih
      · simp [h]

/-- C3: with an empty event-type whitelist, filter_flags is the identity
on the event's flags; with a non-empty whitelist it is the intersection of
the event's flags with the whitelist; and an event whose intersection is
empty contributes nothing to the surviving subset of any batch in
notify_events. -/
theorem filter_flags_spec (etf : List fsw_event_flag) (evt : event)
    (filters : List compiled_monitor_filter) :
    (etf = [] → filter_flags etf evt = evt.flags) ∧
    (etf ≠ [] →
       filter_flags etf evt = evt.flags.filter (fun f => etf.contains f)) ∧
    (filter_flags etf evt = [] →
       ∀ pre post : List event,
         surviving_events filters etf (pre ++ evt :: post) =
           surviving_events filters etf (pre ++ post)) := by
  refine ⟨?_, ?_, ?_⟩
  · intro h
    simp [filter_flags, h]
  · intro h
    simp [filter_flags, List.isEmpty_iff, h]
  · intro h pre post
    simp only [surviving_events, List.filterMap_append, List.filterMap_cons]
    rw [h]
    simp

/-- C4: notify_events filters every event of the batch in arrival order
and invokes the callback exactly once with the surviving subset, in
arrival order, when that subset is non-empty; it invokes the callback zero
times when every event is filtered out, and never with an empty
sequence. -/
theorem notify_events_spec (fs : List compiled_monitor_filter)
    (etf : List fsw_event_flag) (events : List event) :
    (surviving_events fs etf events ≠ [] →
       notify_events fs etf events = [surviving_events fs etf events]) ∧
    (surviving_events fs etf events = [] →
       notify_events fs etf events = []) ∧
    (∀ call ∈ notify_events fs etf events, call ≠ []) ∧
    List.Sublist ((surviving_events fs etf events).map event.path)
      (events.map event.path) := by
  refine ⟨?_, ?_, ?_, surviving_events_paths_sublist fs etf events⟩
  · intro h
    simp [notify_events, List.isEmpty_iff, h]
  · intro h
    simp [notify_events, h]
  · intro call hc
    simp only [notify_events] at hc
    by_cases h : (surviving_events fs etf events).isEmpty
    · simp [h] at hc
    · rw [if_neg (by simpa using h), List.mem_singleton] at hc
      subst hc
      simpa [List.isEmpty_iff] using h

/-- C3 witness: the three conjuncts of filter_flags_spec evaluated at
concrete whitelists and events. -/
theorem filter_flags_spec_witness :
    filter_flags [] ⟨"f", 0, [fsw_event_flag.Created]⟩ =
      [fsw_event_flag.Created] ∧
    filter_flags [fsw_event_flag.Created] ⟨"g", 1, [fsw_event_flag.Updated]⟩ =
      [fsw_event_flag.Updated].filter
        (fun f => [fsw_event_flag.Created].contains f) ∧
    surviving_events [] [fsw_event_flag.Created]
        ([] ++ (⟨"g", 1, [fsw_event_flag.Updated]⟩ : event) :: []) =
      surviving_events [] [fsw_event_flag.Created] ([] ++ []) :=
  ⟨(filter_flags_spec [] ⟨"f", 0, [fsw_event_flag.Created]⟩ []).1 rfl,
   (filter_flags_spec [fsw_event_flag.Created]
      ⟨"g", 1, [fsw_event_flag.Updated]⟩ []).2.1 (by decide),
   (filter_flags_spec [fsw_event_flag.Created]
      ⟨"g", 1, [fsw_event_flag.Updated]⟩ []).2.2 (by decide) [] []⟩

/-- C4 witness: notify_events at a batch that fully survives makes exactly
one callback invocation carrying it, and at a batch fully filtered out by
the event-type whitelist makes none. -/
theorem notify_events_spec_witness :
    notify_events [] [] [⟨"a", 0, [fsw_event_flag.Created]⟩] =
      [[⟨"a", 0, [fsw_event_flag.Created]⟩]] ∧
    notify_events [] [fsw_event_flag.Updated]
      [⟨"a", 0, [fsw_event_flag.Created]⟩] = [] :=
  ⟨((notify_events_spec [] [] [⟨"a", 0, [fsw_event_flag.Created]⟩]).1
      (by decide)).trans rfl,
   (notify_events_spec [] [fsw_event_flag.Updated]
      [⟨"a", 0, [fsw_event_flag.Created]⟩]).2.1 (by decide)⟩

/-- Helper: once Running, every further start call is rejected and never
launches a loop. -/
theorem start_calls_from_running (n : Nat) :
    start_calls lifecycle_state.Running n =
      (lifecycle_state.Running,
       List.replicate n (Except.error fsw_error.AlreadyRunning), 0) := by
  induction n with
  | zero => rfl
  | succ k ih => simp [start_calls, start, ih, List.replicate_succ]

/-- C1: the native event loop is started at most once.  The first start
call from the Configured state succeeds and launches the loop; any call in
any other state — in particular while Running — is rejected with
AlreadyRunning, launches nothing, and leaves the state unchanged; over any
sequence of one or more sequential start calls (the run_mutex serializes
racing calls into such a sequence) exactly one loop ever runs, and the
second call of any such sequence reports AlreadyRunning. -/
theorem start_once_spec (n : Nat) :
    start lifecycle_state.Configured =
      (lifecycle_state.Running, Except.ok (), true) ∧
    (∀ s, s ≠ lifecycle_state.Configured →
       start s = (s, Except.error fsw_error.AlreadyRunning, false)) ∧
    (start_calls lifecycle_state.Configured (n + 1)).2.2 = 1 ∧
    (start_calls lifecycle_state.Configured (n + 2)).2.1.get? 1 =
      some (Except.error fsw_error.AlreadyRunning) := by
  refine ⟨rfl, ?_, ?_, ?_⟩
  · intro s hs
    cases s with
    | Configured => exact absurd rfl hs
    | Running => rfl
    | Failed => rfl
    | Stopped => rfl
  · simp [start_calls, start, start_calls_from_running]
  · simp [start_calls, start, start_calls_from_running, List.replicate_succ]

/-- C1 witness: two sequential start calls from Configured run exactly one
loop, the second call reporting AlreadyRunning. -/
theorem start_once_spec_witness :
    start lifecycle_state.Running =
      (lifecycle_state.Running, Except.error fsw_error.AlreadyRunning, false) ∧
    (start_calls lifecycle_state.Configured 2).2.2 = 1 ∧
    (start_calls lifecycle_state.Configured 2).2.1.get? 1 =
      some (Except.error fsw_error.AlreadyRunning) :=
  ⟨(start_once_spec 0).2.1 lifecycle_state.Running (by decide),
   (start_once_spec 1).2.2.1,
   (start_once_spec 0).2.2.2⟩

/-- C5: notify_overflow with allow_overflow false propagates a dedicated
Overflow failure; with allow_overflow true it produces exactly one
synthetic event bearing only the Overflow flag, delivered exactly when the
Overflow flag passes the event-type whitelist, and its delivery coincides
with routing the synthetic event through notify_events with no path
filters applied. -/
theorem notify_overflow_spec (etf : List fsw_event_flag) (p : String)
    (t : Nat) :
    notify_overflow false etf p t = Except.error fsw_error.Overflow ∧
    (accept_event_type etf fsw_event_flag.Overflow = true →
       notify_overflow true etf p t =
         Except.ok [[⟨p, t, [fsw_event_flag.Overflow]⟩]]) ∧
    (accept_event_type etf fsw_event_flag.Overflow = false →
       notify_overflow true etf p t = Except.ok []) ∧
    notify_overflow true etf p t =
      Except.ok (notify_events [] etf [⟨p, t, [fsw_event_flag.Overflow]⟩]) := by
  have hff : filter_flags etf ⟨p, t, [fsw_event_flag.Overflow]⟩ =
      (if accept_event_type etf fsw_event_flag.Overflow then
        [fsw_event_flag.Overflow] else []) := by
    simp only [filter_flags, accept_event_type]
    by_cases he : etf.isEmpty
    · simp [he]
    · by_cases hc : fsw_event_flag.Overflow ∈ etf
      · simp [he, hc, List.filter]
      · simp [he, hc, List.filter]
  refine ⟨rfl, ?_, ?_, ?_⟩
  · intro h
    simp [notify_overflow, hff, h]
  · intro h
    simp [notify_overflow, hff, h]
  · by_cases h : accept_event_type etf fsw_event_flag.Overflow
    · simp [notify_overflow, notify_events, surviving_events, hff, h,
        accept_path]
    · simp [notify_overflow, notify_events, surviving_events, hff, h]

/-- C5 witness: with an empty whitelist the overflow event is delivered as
the single surviving event of one callback invocation; with a whitelist
not containing Overflow it is filtered out. -/
theorem notify_overflow_spec_witness :
    notify_overflow true [] "p" 5 =
      Except.ok [[(⟨"p", 5, [fsw_event_flag.Overflow]⟩ : event)]] ∧
    notify_overflow true [fsw_event_flag.Created] "p" 5 = Except.ok [] :=
  ⟨(notify_overflow_spec [] "p" 5).2.1 rfl,
   (notify_overflow_spec [fsw_event_flag.Created] "p" 5).2.2.1 rfl⟩

/-- Helper: a batch containing a pattern that fails to compile makes
compile_all fail with a PatternError naming a pattern of the batch that
itself fails to compile. -/
theorem compile_all_fails
    (compile : monitor_filter → Option compiled_monitor_filter)
    (fs : List monitor_filter) :
    (∃ g ∈ fs, compile g = none) →
    ∃ g ∈ fs, compile g = none ∧
      compile_all compile fs = Except.error (fsw_error.PatternError g.text) := by
  induction fs with
  | nil =>
      rintro ⟨g, hg, -⟩
      exact absurd hg (List.not_mem_nil g)
  | cons f rest ih =>
      rintro ⟨g, hg, hc⟩
      by_cases hf : compile f = none
      · exact ⟨f, List.mem_cons_self f rest, hf, by simp [compile_all, hf]⟩
      · obtain ⟨c, hsome⟩ := Option.ne_none_iff_exists'.mp hf
        have hg' : g ∈ rest := by
          rcases List.mem_cons.mp hg with h | h
          · exact absurd (h ▸ hc) hf
          · exact h
        obtain ⟨g', hg'', hg'none, herr⟩ := ih ⟨g, hg', hc⟩
        exact ⟨g', List.mem_cons_of_mem f hg'', hg'none,
          by simp [compile_all, hsome, herr]⟩

/-- C6: if any pattern of a batch passed to set_filters fails to compile,
the call surfaces a PatternError identifying an offending pattern — a
pattern of the batch that itself fails to compile — and the
compiled-filter list is left exactly as it was; likewise add_filter with a
failing pattern surfaces the PatternError for that pattern and applies
nothing. -/
theorem filter_batch_atomic
    (compile : monitor_filter → Option compiled_monitor_filter)
    (state : List compiled_monitor_filter) (fs : List monitor_filter)
    (f : monitor_filter) :
    ((∃ g ∈ fs, compile g = none) →
       (set_filters compile state fs).1 = state ∧
       ∃ g ∈ fs, compile g = none ∧
         (set_filters compile state fs).2 =
           some (fsw_error.PatternError g.text)) ∧
    (compile f = none →
       add_filter compile state f =
         (state, some (fsw_error.PatternError f.text))) := by
  constructor
  · intro h
    obtain ⟨g, hg, hgnone, herr⟩ := compile_all_fails compile fs h
    exact ⟨by simp [set_filters, herr], g, hg, hgnone,
      by simp [set_filters, herr]⟩
  · intro h
    simp [add_filter, h]

/-- C6 witness: applying a one-element batch whose pattern is malformed
leaves the empty filter list unchanged and reports the offending
pattern. -/
theorem filter_batch_atomic_witness :
    (set_filters sample_compile [] [bad_filter]).1 = [] ∧
    (set_filters sample_compile [] [bad_filter]).2 =
      some (fsw_error.PatternError "(") ∧
    add_filter sample_compile [] bad_filter =
      ([], some (fsw_error.PatternError "(")) := by
  have h := filter_batch_atomic sample_compile [] [bad_filter] bad_filter
  exact ⟨(h.1 ⟨bad_filter, List.mem_singleton_self bad_filter, rfl⟩).1,
    rfl, h.2 rfl⟩

/-- C7: set_latency fails with InvalidArgument exactly when the value is
not greater than 0, leaving the configuration unchanged; a positive value
is stored unmodified with no error; and before any call the latency holds
the header's default 1.0. -/
theorem set_latency_spec (m : monitor_config) (l : ℚ) :
    ((set_latency m l).2 = some fsw_error.InvalidArgument ↔ ¬ 0 < l) ∧
    (0 < l →
       (set_latency m l).1.latency = l ∧ (set_latency m l).2 = none) ∧
    (¬ 0 < l → (set_latency m l).1 = m) ∧
    ({} : monitor_config).latency = 1 := by
  refine ⟨?_, ?_, ?_, rfl⟩
  · by_cases h : l ≤ 0
    · simp [set_latency, h, not_lt.mpr h]
    · simp [set_latency, h, not_le.mp h]
  · intro h
    simp [set_latency, not_le.mpr h]
  · intro h
    simp [set_latency, not_lt.mp h]

/-- C7 witness: latency 2 is stored unmodified with no error; latency 0 is
rejected with InvalidArgument, the configuration untouched. -/
theorem set_latency_spec_witness :
    (set_latency {} 2).1.latency = 2 ∧
    (set_latency {} 2).2 = none ∧
    (set_latency {} 0).2 = some fsw_error.InvalidArgument ∧
    (set_latency {} 0).1 = ({} : monitor_config) :=
  ⟨((set_latency_spec {} 2).2.1 (by norm_num)).1,
   ((set_latency_spec {} 2).2.1 (by norm_num)).2,
   (set_latency_spec {} 0).1.mpr (by norm_num),
   (set_latency_spec {} 0).2.2.1 (by norm_num)⟩

/-- C8: after a successful registration of a name, registering the same
name again surfaces a duplicate-key violation and leaves the registry
exactly as it was — the first entry is neither overwritten nor is the
second call silently ignored — and register_creator preserves uniqueness
of the registry's keys. -/
theorem register_creator_spec (r : registry Nat) (name : String)
    (c1 c2 : Nat) :
    ((register_creator r name c1).2 = none →
       register_creator (register_creator r name c1).1 name c2 =
         ((register_creator r name c1).1,
          some (fsw_error.DuplicateCreator name))) ∧
    ((r.creators_by_string.map Prod.fst).Nodup →
       ((register_creator r name c1).1.creators_by_string.map
         Prod.fst).Nodup) := by
  constructor
  · intro h
    by_cases hc : name ∈ r.creators_by_string.map Prod.fst
    · simp [register_creator, hc] at h
    · simp [register_creator, hc, List.mem_append]
  · intro hnd
    by_cases hc : name ∈ r.creators_by_string.map Prod.fst
    · simpa [register_creator, hc] using hnd
    · simp [register_creator, hc, List.nodup_append, hnd]

/-- C8 witness: registering "inotify" twice in a fresh registry makes the
second call report the duplicate key while keeping the registry of the
first call, whose keys are unique. -/
theorem register_creator_spec_witness :
    register_creator
        (register_creator ({} : registry Nat) "inotify" 0).1 "inotify" 1 =
      ((register_creator ({} : registry Nat) "inotify" 0).1,
       some (fsw_error.DuplicateCreator "inotify")) ∧
    ((register_creator ({} : registry Nat) "inotify"
        0).1.creators_by_string.map Prod.fst).Nodup :=
  ⟨(register_creator_spec {} "inotify" 0 1).1 rfl,
   (register_creator_spec {} "inotify" 0 1).2 List.nodup_nil⟩

/-- C9: get_property returns the value stored for a present key and the
empty result for a missing key, in every case totally and without
failure. -/
theorem get_property_spec (m : monitor_config) (name v : String) :
    (m.properties.lookup name = some v → get_property m name = v) ∧
    (m.properties.lookup name = none → get_property m name = "") := by
  constructor
  · intro h
    simp [get_property, h]
  · intro h
    simp [get_property, h]

/-- C9 witness: after storing the property map {"k" ↦ "x"}, looking up "k"
yields "x" and looking up the absent key "z" yields the empty result. -/
theorem get_property_spec_witness :
    get_property (set_properties {} [("k", "x")]) "k" = "x" ∧
    get_property (set_properties {} [("k", "x")]) "z" = "" :=
  ⟨(get_property_spec (set_properties {} [("k", "x")]) "k" "x").1 rfl,
   (get_property_spec (set_properties {} [("k", "x")]) "z" "").2 rfl⟩

end Fswatch
